import Mathlib

/-
Verification of the Instance/Image Correlator of aws_auditor.py.

Shallow embedding conventions:
- A Python dictionary from the AWS API is modelled as a structure whose
  fields are Option-valued: none models an absent key.
- d.get(k) is field access; d.get(k, default) is Option.getD.
- A Python value that may be a string or None is Option String; none
  models the Python value None. Rendering such a value in an f-string
  goes through pyStr, which prints None as "None" the way Python does.
- Python truthiness of a string is nonemptiness; of a list, nonemptiness;
  of None, false.
- The insertion-ordered Python dict instance_mapping is modelled as an
  association list, with setdefault-append semantics (addToMapping).
-/

namespace AwsAuditor

/-- A tag dictionary from a DescribeInstances response: may carry a Key and a Value. -/
structure Tag where
  key : Option String := none
  value : Option String := none
deriving Repr, DecidableEq

/-- A security-group dictionary: may carry a GroupName. -/
structure SecurityGroup where
  groupName : Option String := none
deriving Repr, DecidableEq

/-- The State sub-dictionary of an instance: may carry a Name. -/
structure InstanceState where
  name : Option String := none
deriving Repr, DecidableEq

/-- The IamInstanceProfile sub-dictionary of an instance: may carry an Arn. -/
structure IamProfile where
  arn : Option String := none
deriving Repr, DecidableEq

/-- An EC2 instance dictionary; every key the program reads is optional. -/
structure Instance where
  instanceId : Option String := none
  imageId : Option String := none
  tags : Option (List Tag) := none
  instanceType : Option String := none
  state : Option InstanceState := none
  publicIp : Option String := none
  privateIp : Option String := none
  securityGroups : Option (List SecurityGroup) := none
  iamInstanceProfile : Option IamProfile := none
deriving Repr, DecidableEq

/-- An AMI dictionary from a DescribeImages response: ImageId and Name, both optional. -/
structure Image where
  imageId : Option String := none
  name : Option String := none
deriving Repr, DecidableEq

/-- One row of the AMI audit table (keys: AMI ID, AMI Name, Instances). -/
structure AmiRow where
  amiId : String
  amiName : String
  instances : String
deriving Repr, DecidableEq

/-- Scan of the tag list performed by get_instance_name: return the Value
of the first tag whose Key equals "Name" (the Value may be absent, i.e.
Python None), and the string "N/A" when no tag matches. -/
def findNameTag : List Tag → Option String
  | [] => some "N/A"
  | t :: rest => if t.key = some "Name" then t.value else findNameTag rest

/-- get_instance_name (lines 22-31): tags = instance.get(Tags, []), then
the scan findNameTag. The result is Option String since Python may return
the None stored under a Value-less tag. -/
def get_instance_name (i : Instance) : Option String :=
  findNameTag (i.tags.getD [])

/-- How a Python f-string renders a value that is either a string or None. -/
def pyStr : Option String → String
  | none => "None"
  | some s => s

/-- The descriptor built on line 84: f-string of the instance name and
instance.get(InstanceId, "N/A") in parentheses. -/
def instance_str (i : Instance) : String :=
  pyStr (get_instance_name i) ++ " (" ++ i.instanceId.getD "N/A" ++ ")"

/-- Python truthiness of instance.get(ImageId): false for an absent key
(None) and for the empty string. -/
def truthyStr : Option String → Bool
  | none => false
  | some s => !(s == "")

/-- The image identifier an instance contributes under, if any: its
ImageId when present and truthy (non-empty), none otherwise. -/
def keyOf (i : Instance) : Option String :=
  match i.imageId with
  | none => none
  | some s => if s = "" then none else some s

/-- instance_mapping.setdefault(ami_id, []).append(instance_str): if the
key is present, append to its list in place; otherwise add the key at the
end with a singleton list. -/
def addToMapping (m : List (String × List String)) (k : String) (v : String) :
    List (String × List String) :=
  match m with
  | [] => [(k, [v])]
  | (k2, vs) :: rest =>
    if k2 = k then (k2, vs ++ [v]) :: rest else (k2, vs) :: addToMapping rest k v

/-- The body of the loop on lines 81-85: skip an instance whose ImageId is
absent or falsy, otherwise record its descriptor under its ImageId. -/
def buildStep (m : List (String × List String)) (i : Instance) :
    List (String × List String) :=
  match i.imageId with
  | none => m
  | some amiId => if amiId = "" then m else addToMapping m amiId (instance_str i)

/-- The mapping from AMI IDs to descriptor lists built on lines 80-85. -/
def instance_mapping (instances : List Instance) : List (String × List String) :=
  instances.foldl buildStep []

/-- Python dict .get(k) with no default on the association list: the value
stored at the first matching key, or None. -/
def lookupMapping : List (String × List String) → String → Option (List String)
  | [], _ => none
  | (k2, vs) :: rest, k => if k2 = k then some vs else lookupMapping rest k

/-- Line 95: ", ".join(associated_instances) if associated_instances else
"None". The condition is Python truthiness: None and the empty list both
render "None". -/
def joinOrNone : Option (List String) → String
  | none => "None"
  | some [] => "None"
  | some (v :: vs) => String.intercalate ", " (v :: vs)

/-- The AMI report rows built on lines 90-101: one row per image, in input
order, with ImageId and Name defaulted to "N/A" and the associated
descriptors joined (or the "None" sentinel). -/
def ami_results (instances : List Instance) (images : List Image) : List AmiRow :=
  let m := instance_mapping instances
  images.map (fun image =>
    { amiId := image.imageId.getD "N/A"
      amiName := image.name.getD "N/A"
      instances := joinOrNone (lookupMapping m (image.imageId.getD "N/A")) })

/-
Monadic embedding for the safety and error-handling claims. Python code
may raise; the embedding makes this explicit by computing in Except
String. An operation the source guards with a safe-default accessor is
total (pure); the operations that can genuinely raise are the AWS API
calls (modelled as Except-valued fields of ApiEnv) and str.join applied
to a list containing None (pyJoin).
-/

/-- A metric dictionary from a ListMetrics response. -/
structure MetricRec where
  metricName : Option String := none
deriving Repr, DecidableEq

/-- A reservation dictionary from a DescribeInstances response. -/
structure Reservation where
  instances : Option (List Instance) := none
deriving Repr, DecidableEq

/-- The DescribeInstances response dictionary. -/
structure InstancesResponse where
  reservations : Option (List Reservation) := none
deriving Repr, DecidableEq

/-- The ListMetrics response dictionary. -/
structure MetricsResponse where
  metrics : Option (List MetricRec) := none
deriving Repr, DecidableEq

/-- The DescribeImages response dictionary. -/
structure ImagesResponse where
  images : Option (List Image) := none
deriving Repr, DecidableEq

/-- The AWS API collaborators: each call either returns a response or
raises (an exception modelled as Except.error with the exception text). -/
structure ApiEnv where
  describeInstances : Except String InstancesResponse
  listMetrics : String → Except String MetricsResponse
  describeImages : Except String ImagesResponse

/-- Python str.join over a list whose items may be None: raises TypeError
on a None item, otherwise concatenates with the separator. -/
def pyJoin (sep : String) (items : List (Option String)) : Except String String :=
  if items.all Option.isSome then
    Except.ok (String.intercalate sep (items.map (fun o => o.getD "")))
  else
    Except.error "TypeError: sequence item: expected str instance, NoneType found"

/-- One row of the EC2 instances table (lines 50-67). The Name entry may
hold Python None (a Value-less Name tag), hence Option String. -/
structure InstanceRow where
  instId : String
  name : Option String
  itype : String
  state : String
  publicIp : String
  privateIp : String
  securityGroups : String
  iamRole : String
  monitoringAlarms : String
deriving Repr, DecidableEq

/-- The per-instance body of the loop on lines 49-69: security-group
names, the instance_data dictionary, the ListMetrics call and the alarm
names. The joins can raise on a None item; the metrics call can raise. -/
def instanceRowE (api : ApiEnv) (inst : Instance) : Except String InstanceRow := do
  let security_groups := (inst.securityGroups.getD []).map (fun sg => sg.groupName)
  let sgStr ← if security_groups.isEmpty then Except.ok "N/A"
    else pyJoin ", " security_groups
  let metrics_response ← api.listMetrics (inst.instanceId.getD "N/A")
  let alarms := (metrics_response.metrics.getD []).map (fun mr => mr.metricName)
  let alarmsStr ← if alarms.isEmpty then Except.ok "None" else pyJoin ", " alarms
  Except.ok
    { instId := inst.instanceId.getD "N/A"
      name := get_instance_name inst
      itype := inst.instanceType.getD "N/A"
      state := (inst.state.getD {}).name.getD "N/A"
      publicIp := inst.publicIp.getD "N/A"
      privateIp := inst.privateIp.getD "N/A"
      securityGroups := sgStr
      iamRole := (inst.iamInstanceProfile.getD {}).arn.getD "N/A"
      monitoringAlarms := alarmsStr }

/-- One block written to the console by the audit step: the EC2
instances table (line 77), the AMI table (line 106), or a plain printed
message (line 110). -/
inductive ConsoleBlock where
  | ec2Table (rows : List InstanceRow)
  | amiTable (rows : List AmiRow)
  | message (text : String)
deriving Repr, DecidableEq

/-- Whether a console block is a plain printed message. -/
def ConsoleBlock.isMessage : ConsoleBlock → Bool
  | ConsoleBlock.message _ => true
  | _ => false

/-- The generic console message of line 110. -/
def consoleErrorText : String :=
  "Error: Unable to retrieve EC2 instance or AMI information. Please check your IAM permissions."

/-- The instances of all reservations of a DescribeInstances response,
in order: the two nested loops of lines 45-46 flattened. -/
def raw_of (response : InstancesResponse) : List Instance :=
  (response.reservations.getD []).foldr (fun r acc => r.instances.getD [] ++ acc) []

/-- Lines 77-106 once the instance rows are built: the EC2 table is
printed, then DescribeImages is called; if it raises, only the EC2 table
has been printed; otherwise the AMI table is printed after it. -/
def audit_images_part (api : ApiEnv) (raw_instances : List Instance)
    (instances_data : List InstanceRow) : List ConsoleBlock × Option String :=
  match api.describeImages with
  | Except.error e => ([ConsoleBlock.ec2Table instances_data], some e)
  | Except.ok images_response =>
    ([ConsoleBlock.ec2Table instances_data,
      ConsoleBlock.amiTable
        (ami_results raw_instances (images_response.images.getD []))], none)

/-- The try block of audit_ec2_instances (lines 40-106) with its console
output interleaved exactly as in the source: DescribeInstances and the
per-instance rows (with their metrics calls) come first with nothing yet
printed; then the EC2 table is printed (line 77) before the mapping
build and the DescribeImages call (line 88), and the AMI table is
printed last (line 106). The result is the list of blocks printed up to
the point reached, paired with the exception text when one was raised:
an exception after line 77 leaves the already-printed EC2 table behind. -/
def audit_try (api : ApiEnv) : List ConsoleBlock × Option String :=
  match api.describeInstances with
  | Except.error e => ([], some e)
  | Except.ok response =>
    match (raw_of response).mapM (instanceRowE api) with
    | Except.error e => ([], some e)
    | Except.ok instances_data =>
      audit_images_part api (raw_of response) instances_data

/-- The outcome of one audit step: error-log entries written and the
console blocks printed, in order. -/
structure AuditOutcome where
  logs : List String
  printed : List ConsoleBlock
deriving Repr, DecidableEq

/-- audit_ec2_instances (lines 33-110): run the try block; on any
exception, write one error-level log entry carrying the exception text
and print the single generic console message after whatever the body
already printed, then return normally. -/
def audit_ec2_instances (api : ApiEnv) : AuditOutcome :=
  match audit_try api with
  | (printed, none) => { logs := [], printed := printed }
  | (printed, some e) =>
    { logs := ["Error auditing EC2 instances: " ++ e]
      printed := printed ++ [ConsoleBlock.message consoleErrorText] }

/-- One observable event of the menu loop. -/
inductive LoopEvent where
  | audit (outcome : AuditOutcome)
  | invalid
  | exited
deriving Repr, DecidableEq

/-- Drop leading whitespace characters from a character list. -/
def dropLeadingWs : List Char → List Char
  | [] => []
  | c :: cs => if c.isWhitespace then dropLeadingWs cs else c :: cs

/-- Python str.strip(): remove leading and trailing whitespace. -/
def pyStrip (s : String) : String :=
  ⟨dropLeadingWs ((dropLeadingWs s.data.reverse).reverse)⟩

/-- The menu loop of main (lines 115-128) run on a finite script of input
lines: choice "1" performs an audit step and loops, "2" exits, anything
else prints the invalid-choice message and loops. -/
def main_loop (api : ApiEnv) : List String → List LoopEvent
  | [] => []
  | choice :: rest =>
    if pyStrip choice = "1" then
      LoopEvent.audit (audit_ec2_instances api) :: main_loop api rest
    else if pyStrip choice = "2" then [LoopEvent.exited]
    else LoopEvent.invalid :: main_loop api rest

/-- The tag scan of get_instance_name, spelled out in Except: every
operation it performs is a safe-default access, so no arm raises. -/
def findNameTagE : List Tag → Except String (Option String)
  | [] => Except.ok (some "N/A")
  | t :: rest => if t.key = some "Name" then Except.ok t.value else findNameTagE rest

/-- get_instance_name in Except. -/
def get_instance_nameE (i : Instance) : Except String (Option String) :=
  findNameTagE (i.tags.getD [])

/-- The descriptor f-string of line 84 in Except. -/
def instance_strE (i : Instance) : Except String String := do
  let n ← get_instance_nameE i
  Except.ok (pyStr n ++ " (" ++ i.instanceId.getD "N/A" ++ ")")

/-- The loop body of lines 81-85 in Except. -/
def buildStepE (m : List (String × List String)) (i : Instance) :
    Except String (List (String × List String)) :=
  match i.imageId with
  | none => Except.ok m
  | some amiId =>
    if amiId = "" then Except.ok m
    else do
      let s ← instance_strE i
      Except.ok (addToMapping m amiId s)

/-- The mapping build of lines 80-85 in Except. -/
def instance_mappingE (instances : List Instance) :
    Except String (List (String × List String)) :=
  instances.foldlM buildStepE []

/-- One AMI report row (lines 92-101) in Except: dictionary reads with
defaults, a dict .get and the join-or-sentinel, all safe. -/
def amiRowE (m : List (String × List String)) (image : Image) :
    Except String AmiRow :=
  Except.ok
    { amiId := image.imageId.getD "N/A"
      amiName := image.name.getD "N/A"
      instances := joinOrNone (lookupMapping m (image.imageId.getD "N/A")) }

/-- The whole correlator (lines 79-101) in Except. -/
def ami_resultsE (instances : List Instance) (images : List Image) :
    Except String (List AmiRow) := do
  let m ← instance_mappingE instances
  images.mapM (amiRowE m)

/-- An API environment whose DescribeInstances call raises. -/
def failingApi : ApiEnv :=
  { describeInstances := Except.error "AccessDenied"
    listMetrics := fun _ => Except.ok {}
    describeImages := Except.ok {} }

/-- An API environment whose DescribeInstances call succeeds and whose
DescribeImages call raises: the step fails only after the EC2 table has
been printed. -/
def imagesFailApi : ApiEnv :=
  { describeInstances := Except.ok {}
    listMetrics := fun _ => Except.ok {}
    describeImages := Except.error "AccessDenied" }

lemma findNameTag_of_no_name :
    ∀ l : List Tag, (∀ t ∈ l, t.key ≠ some "Name") → findNameTag l = some "N/A" := by
  intro l h
  induction l with
  | nil => rfl
  | cons t rest ih =>
    have ht : t.key ≠ some "Name" := h t (List.mem_cons_self t rest)
    simp only [findNameTag, if_neg ht]
    exact ih fun u hu => h u (List.mem_cons_of_mem t hu)

lemma findNameTag_first_match (pre post : List Tag) (t : Tag)
    (hpre : ∀ u ∈ pre, u.key ≠ some "Name") (ht : t.key = some "Name") :
    findNameTag (pre ++ t :: post) = t.value := by
  induction pre with
  | nil => simp [findNameTag, ht]
  | cons u pre2 ih =>
    have hu : u.key ≠ some "Name" := hpre u (List.mem_cons_self u pre2)
    simp only [List.cons_append, findNameTag, if_neg hu]
    exact ih fun w hw => hpre w (List.mem_cons_of_mem u hw)

lemma lookupMapping_addToMapping (m : List (String × List String)) (k v k2 : String) :
    lookupMapping (addToMapping m k v) k2 =
      if k2 = k then some ((lookupMapping m k).getD [] ++ [v])
      else lookupMapping m k2 := by
  induction m with
  | nil =>
    by_cases h : k2 = k
    · subst h; simp [addToMapping, lookupMapping]
    · have h2 : ¬ k = k2 := fun hh => h hh.symm
      simp [addToMapping, lookupMapping, h, h2]
  | cons p rest ih =>
    obtain ⟨k3, vs⟩ := p
    by_cases h3 : k3 = k
    · subst h3
      by_cases h : k2 = k3
      · subst h; simp [addToMapping, lookupMapping]
      · have h2 : ¬ k3 = k2 := fun hh => h hh.symm
        simp [addToMapping, lookupMapping, h, h2]
    · by_cases h : k2 = k3
      · subst h
        have h4 : ¬ k = k2 := fun hh => h3 hh.symm
        simp [addToMapping, lookupMapping, h3, h4]
      · have h2 : ¬ k3 = k2 := fun hh => h hh.symm
        simp [addToMapping, lookupMapping, h3, h2, h, ih]

/-- Characterization of one fold step over an arbitrary accumulator. -/
lemma lookupMapping_foldl (l : List Instance) :
    ∀ (m : List (String × List String)) (k : String),
      (lookupMapping (l.foldl buildStep m) k).getD [] =
        (lookupMapping m k).getD []
          ++ (l.filter (fun i => keyOf i = some k)).map instance_str := by
  induction l with
  | nil => intro m k; simp
  | cons i rest ih =>
    intro m k
    simp only [List.foldl_cons]
    rw [ih]
    cases hkey : i.imageId with
    | none =>
      have hstep : buildStep m i = m := by simp [buildStep, hkey]
      have hne : ¬ (keyOf i = some k) := by simp [keyOf, hkey]
      rw [hstep, List.filter_cons_of_neg (by simpa using hne)]
    | some amiId =>
      by_cases hempty : amiId = ""
      · subst hempty
        have hstep : buildStep m i = m := by simp [buildStep, hkey]
        have hne : ¬ (keyOf i = some k) := by simp [keyOf, hkey]
        rw [hstep, List.filter_cons_of_neg (by simpa using hne)]
      · have hstep : buildStep m i = addToMapping m amiId (instance_str i) := by
          simp [buildStep, hkey, hempty]
        have hkeyOf : keyOf i = some amiId := by simp [keyOf, hkey, hempty]
        rw [hstep, lookupMapping_addToMapping]
        by_cases hk : amiId = k
        · subst hk
          rw [if_pos rfl, List.filter_cons_of_pos (by simp [hkeyOf])]
          simp
        · rw [if_neg fun hh => hk hh.symm,
            List.filter_cons_of_neg (by simp [hkeyOf, hk])]

/-- The association list for any key is exactly the descriptors of the
instances contributing under that key, in input order. -/
lemma instance_mapping_char (instances : List Instance) (k : String) :
    (lookupMapping (instance_mapping instances) k).getD [] =
      (instances.filter (fun i => keyOf i = some k)).map instance_str := by
  have h := lookupMapping_foldl instances [] k
  simpa [instance_mapping, lookupMapping] using h

/-- Every descriptor list stored in the mapping is nonempty. -/
lemma instance_mapping_ne_nil (instances : List Instance) (k : String)
    (vs : List String) (h : lookupMapping (instance_mapping instances) k = some vs) :
    vs ≠ [] := by
  have base : ∀ k2 vs2, lookupMapping ([] : List (String × List String)) k2 = some vs2 → vs2 ≠ [] := by
    intro k2 vs2 hh; simp [lookupMapping] at hh
  have step : ∀ (l : List Instance) (m : List (String × List String)),
      (∀ k2 vs2, lookupMapping m k2 = some vs2 → vs2 ≠ []) →
      ∀ k2 vs2, lookupMapping (l.foldl buildStep m) k2 = some vs2 → vs2 ≠ [] := by
    intro l
    induction l with
    | nil => intro m hm; simpa using hm
    | cons i rest ih =>
      intro m hm
      simp only [List.foldl_cons]
      apply ih
      intro k2 vs2 hl
      cases hkey : i.imageId with
      | none =>
        rw [buildStep, hkey] at hl
        exact hm k2 vs2 hl
      | some amiId =>
        by_cases hempty : amiId = ""
        · rw [buildStep, hkey] at hl
          simp only [if_pos hempty] at hl
          exact hm k2 vs2 hl
        · rw [buildStep, hkey] at hl
          simp only [if_neg hempty] at hl
          rw [lookupMapping_addToMapping] at hl
          by_cases hk : k2 = amiId
          · rw [if_pos hk] at hl
            cases hl
            simp
          · rw [if_neg hk] at hl
            exact hm k2 vs2 hl
  exact step instances [] base k vs h

/-- The rendered Instances field for key k equals the joined descriptor
list of the contributing instances, or "None" when there are none. -/
lemma joinOrNone_char (instances : List Instance) (k : String) :
    joinOrNone (lookupMapping (instance_mapping instances) k) =
      if ((instances.filter (fun i => keyOf i = some k)).map instance_str) = []
      then "None"
      else String.intercalate ", "
        ((instances.filter (fun i => keyOf i = some k)).map instance_str) := by
  cases h : lookupMapping (instance_mapping instances) k with
  | none =>
    have hchar := instance_mapping_char instances k
    rw [h] at hchar
    simp only [Option.getD_none] at hchar
    rw [← hchar]
    rfl
  | some vs =>
    have hchar := instance_mapping_char instances k
    rw [h] at hchar
    simp only [Option.getD_some] at hchar
    have hne : vs ≠ [] := instance_mapping_ne_nil instances k vs h
    rw [← hchar, if_neg hne]
    cases vs with
    | nil => exact absurd rfl hne
    | cons v vs2 => rfl

/-- buildStep ignores an instance whose ImageId is absent or empty. -/
lemma buildStep_falsy (m : List (String × List String)) (i : Instance)
    (h : truthyStr i.imageId = false) : buildStep m i = m := by
  cases hkey : i.imageId with
  | none => simp [buildStep, hkey]
  | some s =>
    rw [hkey] at h
    simp only [truthyStr, Bool.not_eq_false', beq_iff_eq] at h
    simp [buildStep, hkey, h]

/-- Claim C1: for every input instance sequence and every image identifier
k, the association list stored under k is exactly the list of descriptors
"name (id)" of the instances whose non-empty image identifier is k — one
entry per such instance, in input order, and an instance appears under no
other key. -/
theorem C1_descriptor_lists_exact (instances : List Instance) (k : String) :
    (lookupMapping (instance_mapping instances) k).getD [] =
      (instances.filter (fun i => keyOf i = some k)).map instance_str :=
  instance_mapping_char instances k

/-- Claim C2: instances whose image identifier is absent or falsy are
excluded from the mapping entirely: removing them from the input leaves
the association mapping unchanged, so they contribute to no list. -/
theorem C2_falsy_image_id_excluded (instances : List Instance) :
    instance_mapping (instances.filter (fun i => truthyStr i.imageId)) =
      instance_mapping instances := by
  have aux : ∀ (l : List Instance) (m : List (String × List String)),
      (l.filter (fun i => truthyStr i.imageId)).foldl buildStep m =
        l.foldl buildStep m := by
    intro l
    induction l with
    | nil => intro m; rfl
    | cons i rest ih =>
      intro m
      cases h : truthyStr i.imageId with
      | true =>
        simp only [List.filter_cons, h, eq_self_iff_true, ite_true,
          List.foldl_cons]
        exact ih (buildStep m i)
      | false =>
        simp only [List.filter_cons, h, Bool.false_eq_true, ite_false,
          List.foldl_cons]
        rw [buildStep_falsy m i h]
        exact ih m
  exact aux instances []

/-- Claim C3: an image whose (defaulted) identifier matches no contributing
instance gets the literal "None" in the Instances field of its row. -/
theorem C3_unmatched_image_renders_none (instances : List Instance)
    (images : List Image) (j : Nat) (image : Image)
    (hj : images[j]? = some image)
    (h : ∀ i ∈ instances, keyOf i ≠ some (image.imageId.getD "N/A")) :
    (ami_results instances images)[j]? =
      some { amiId := image.imageId.getD "N/A"
             amiName := image.name.getD "N/A"
             instances := "None" } := by
  have hfilter :
      instances.filter (fun i => keyOf i = some (image.imageId.getD "N/A")) = [] := by
    rw [List.filter_eq_nil_iff]
    intro i hi
    simpa using h i hi
  have hjoin := joinOrNone_char instances (image.imageId.getD "N/A")
  rw [hfilter] at hjoin
  simp only [List.map_nil, if_true, eq_self_iff_true, ite_true] at hjoin
  simp only [ami_results, List.getElem?_map, hj, Option.map_some']
  rw [hjoin]

theorem C3_unmatched_image_renders_none_witness :
    ([({ imageId := some "ami-2", name := some "unused" } : Image)][0]?
        = some { imageId := some "ami-2", name := some "unused" })
    ∧ (∀ i ∈ ([] : List Instance), keyOf i ≠ some "ami-2")
    ∧ (ami_results [] [{ imageId := some "ami-2", name := some "unused" }])[0]?
        = some { amiId := "ami-2", amiName := "unused", instances := "None" } :=
  ⟨by decide, by decide,
    C3_unmatched_image_renders_none []
      [{ imageId := some "ami-2", name := some "unused" }] 0
      { imageId := some "ami-2", name := some "unused" } (by decide) (by decide)⟩

/-- Claim C4: on the two-instance, one-image example of the spec, the
correlator produces exactly the row
(AMI ID "ami-1", AMI Name "base", Instances "web (i-1), N/A (i-2)"). -/
theorem C4_concrete_example :
    ami_results
      [{ instanceId := some "i-1", imageId := some "ami-1",
         tags := some [{ key := some "Name", value := some "web" }] },
       { instanceId := some "i-2", imageId := some "ami-1", tags := some [] }]
      [{ imageId := some "ami-1", name := some "base" }]
      = [{ amiId := "ami-1", amiName := "base",
           instances := "web (i-1), N/A (i-2)" }] := by
  decide

/-- Claim C5: when no tag of the instance has key "Name" (including an
absent or empty tag list), get_instance_name returns the sentinel "N/A". -/
theorem C5_no_name_tag_gives_na (i : Instance)
    (h : ∀ t ∈ i.tags.getD [], t.key ≠ some "Name") :
    get_instance_name i = some "N/A" :=
  findNameTag_of_no_name _ h

theorem C5_no_name_tag_gives_na_witness :
    (∀ t ∈ ({ tags := some [{ key := some "Env", value := some "prod" }] } :
        Instance).tags.getD [], t.key ≠ some "Name") ∧
    get_instance_name
      { tags := some [{ key := some "Env", value := some "prod" }] } = some "N/A" :=
  ⟨by decide, C5_no_name_tag_gives_na _ (by decide)⟩

/-- Claim C6: the output has exactly one row per input image, in input
order; each row carries the defaulted image identifier and display name,
and either the comma-joined descriptor list or the "None" sentinel. -/
theorem C6_one_row_per_image (instances : List Instance) (images : List Image)
    (j : Nat) :
    (ami_results instances images)[j]? =
      (images[j]?).map (fun image =>
        { amiId := image.imageId.getD "N/A"
          amiName := image.name.getD "N/A"
          instances :=
            if ((instances.filter
                  (fun i => keyOf i = some (image.imageId.getD "N/A"))).map
                    instance_str) = []
            then "None"
            else String.intercalate ", "
              ((instances.filter
                (fun i => keyOf i = some (image.imageId.getD "N/A"))).map
                  instance_str) }) := by
  simp only [ami_results, List.getElem?_map]
  cases hj : images[j]? with
  | none => rfl
  | some image =>
    simp only [Option.map_some']
    have hjoin := joinOrNone_char instances (image.imageId.getD "N/A")
    rw [hjoin]

/-- Claim C9: when the tag list splits as pre ++ t :: post with no "Name"
key in pre and t carrying key "Name", get_instance_name returns the Value
field of t — the missing-value default when t has no Value — and the tags
in post are never consulted. -/
theorem C9_first_name_tag_value (i : Instance) (pre post : List Tag) (t : Tag)
    (hl : i.tags.getD [] = pre ++ t :: post)
    (hpre : ∀ u ∈ pre, u.key ≠ some "Name")
    (ht : t.key = some "Name") :
    get_instance_name i = t.value := by
  rw [get_instance_name, hl]
  exact findNameTag_first_match pre post t hpre ht

theorem C9_first_name_tag_value_witness :
    ({ tags := some [{ key := some "Env", value := some "x" },
                     { key := some "Name" },
                     { key := some "Name", value := some "later" }] } :
        Instance).tags.getD []
      = [({ key := some "Env", value := some "x" } : Tag)]
          ++ ({ key := some "Name" } : Tag)
            :: [({ key := some "Name", value := some "later" } : Tag)]
    ∧ (∀ u ∈ [({ key := some "Env", value := some "x" } : Tag)],
        u.key ≠ some "Name")
    ∧ ({ key := some "Name" } : Tag).key = some "Name"
    ∧ get_instance_name
        { tags := some [{ key := some "Env", value := some "x" },
                        { key := some "Name" },
                        { key := some "Name", value := some "later" }] } = none :=
  ⟨by decide, by decide, by decide,
    C9_first_name_tag_value _
      [{ key := some "Env", value := some "x" }]
      [{ key := some "Name", value := some "later" }]
      { key := some "Name" } (by decide) (by decide) (by decide)⟩

/-- Claim C10: an instance with a truthy image identifier but no
InstanceId field still contributes exactly one descriptor to that image
and no other, with "N/A" in the parenthesized identifier position. -/
theorem C10_missing_instance_id (pre post : List Instance) (i : Instance)
    (k : String) (hid : i.instanceId = none) (hk : keyOf i = some k) :
    (lookupMapping (instance_mapping (pre ++ i :: post)) k).getD [] =
      (lookupMapping (instance_mapping pre) k).getD []
        ++ (pyStr (get_instance_name i) ++ " (" ++ "N/A" ++ ")")
          :: (post.filter (fun i2 => keyOf i2 = some k)).map instance_str := by
  rw [instance_mapping_char, instance_mapping_char, List.filter_append,
    List.filter_cons_of_pos (by simp [hk]), List.map_append, List.map_cons]
  congr 1
  simp [instance_str, hid]

theorem C10_missing_instance_id_witness :
    ({ imageId := some "ami-1",
       tags := some [{ key := some "Name", value := some "web" }] } :
        Instance).instanceId = none
    ∧ keyOf { imageId := some "ami-1",
              tags := some [{ key := some "Name", value := some "web" }] }
        = some "ami-1"
    ∧ (lookupMapping
        (instance_mapping
          ([] ++ ({ imageId := some "ami-1",
                    tags := some [{ key := some "Name", value := some "web" }] } :
              Instance) :: [])) "ami-1").getD []
      = (lookupMapping (instance_mapping []) "ami-1").getD []
          ++ (pyStr (get_instance_name
                { imageId := some "ami-1",
                  tags := some [{ key := some "Name", value := some "web" }] })
              ++ " (" ++ "N/A" ++ ")")
            :: (List.filter (fun i2 => keyOf i2 = some "ami-1") []).map
                instance_str :=
  ⟨by decide, by decide,
    C10_missing_instance_id [] [] _ "ami-1" (by decide) (by decide)⟩

lemma findNameTagE_eq (l : List Tag) : findNameTagE l = Except.ok (findNameTag l) := by
  induction l with
  | nil => rfl
  | cons t rest ih =>
    by_cases h : t.key = some "Name"
    · simp [findNameTagE, findNameTag, h]
    · simp [findNameTagE, findNameTag, h, ih]

lemma instance_strE_eq (i : Instance) :
    instance_strE i = Except.ok (instance_str i) := by
  have h := findNameTagE_eq (i.tags.getD [])
  simp only [instance_strE, get_instance_nameE, h]
  rfl

lemma buildStepE_eq (m : List (String × List String)) (i : Instance) :
    buildStepE m i = Except.ok (buildStep m i) := by
  cases h : i.imageId with
  | none => simp [buildStepE, buildStep, h]
  | some amiId =>
    by_cases he : amiId = ""
    · simp [buildStepE, buildStep, h, he]
    · simp only [buildStepE, buildStep, h, if_neg he, instance_strE_eq]
      rfl

lemma instance_mappingE_eq (instances : List Instance) :
    instance_mappingE instances = Except.ok (instance_mapping instances) := by
  have aux : ∀ (l : List Instance) (m : List (String × List String)),
      l.foldlM buildStepE m = Except.ok (l.foldl buildStep m) := by
    intro l
    induction l with
    | nil => intro m; rfl
    | cons i rest ih =>
      intro m
      rw [List.foldlM_cons, buildStepE_eq, List.foldl_cons]
      have hbind : (Except.ok (buildStep m i) >>= fun m2 => rest.foldlM buildStepE m2)
          = rest.foldlM buildStepE (buildStep m i) := rfl
      rw [hbind, ih]
  exact aux instances []

lemma mapM_amiRowE (m : List (String × List String)) (images : List Image) :
    images.mapM (amiRowE m) = Except.ok (images.map (fun image =>
      { amiId := image.imageId.getD "N/A"
        amiName := image.name.getD "N/A"
        instances := joinOrNone (lookupMapping m (image.imageId.getD "N/A")) })) := by
  induction images with
  | nil => rfl
  | cons image rest ih =>
    rw [List.mapM_cons, ih]
    rfl

/-- Claim C7: the correlator is total. Its Except-monad embedding, in
which every potentially raising operation would surface as Except.error,
returns Except.ok on every pair of inputs, whatever optional fields are
absent, and yields exactly the pure result: no lookup raises. -/
theorem C7_correlator_never_raises (instances : List Instance) (images : List Image) :
    ami_resultsE instances images = Except.ok (ami_results instances images) := by
  show (instance_mappingE instances >>= fun m => images.mapM (amiRowE m))
      = Except.ok (ami_results instances images)
  rw [instance_mappingE_eq]
  have hbind : (Except.ok (instance_mapping instances) >>=
        fun m => images.mapM (amiRowE m))
      = images.mapM (amiRowE (instance_mapping instances)) := rfl
  rw [hbind, mapM_amiRowE]
  rfl

lemma audit_try_of_error1 (api : ApiEnv) (e : String)
    (h : api.describeInstances = Except.error e) :
    audit_try api = ([], some e) := by
  unfold audit_try
  rw [h]

lemma audit_try_of_error2 (api : ApiEnv) (response : InstancesResponse)
    (e : String) (h1 : api.describeInstances = Except.ok response)
    (h2 : (raw_of response).mapM (instanceRowE api) = Except.error e) :
    audit_try api = ([], some e) := by
  unfold audit_try
  rw [h1]
  dsimp only
  rw [h2]

lemma audit_try_of_error3 (api : ApiEnv) (response : InstancesResponse)
    (instances_data : List InstanceRow) (e : String)
    (h1 : api.describeInstances = Except.ok response)
    (h2 : (raw_of response).mapM (instanceRowE api) = Except.ok instances_data)
    (h3 : api.describeImages = Except.error e) :
    audit_try api = ([ConsoleBlock.ec2Table instances_data], some e) := by
  unfold audit_try
  rw [h1]
  dsimp only
  rw [h2]
  dsimp only
  unfold audit_images_part
  rw [h3]

lemma audit_try_of_ok (api : ApiEnv) (response : InstancesResponse)
    (instances_data : List InstanceRow) (images_response : ImagesResponse)
    (h1 : api.describeInstances = Except.ok response)
    (h2 : (raw_of response).mapM (instanceRowE api) = Except.ok instances_data)
    (h3 : api.describeImages = Except.ok images_response) :
    audit_try api =
      ([ConsoleBlock.ec2Table instances_data,
        ConsoleBlock.amiTable
          (ami_results (raw_of response) (images_response.images.getD []))],
        none) := by
  unfold audit_try
  rw [h1]
  dsimp only
  rw [h2]
  dsimp only
  unfold audit_images_part
  rw [h3]

/-- On a failing run, the blocks printed before the failure point are
either nothing (the failure came before line 77) or the EC2 table alone
(the failure came from DescribeImages); the AMI table is printed last
and so never appears in a failing run. -/
lemma audit_try_fail_printed (api : ApiEnv) (e : String)
    (h : (audit_try api).2 = some e) :
    (audit_try api).1 = [] ∨
      ∃ rows, (audit_try api).1 = [ConsoleBlock.ec2Table rows] := by
  cases h1 : api.describeInstances with
  | error e2 =>
    rw [audit_try_of_error1 api e2 h1]
    exact Or.inl rfl
  | ok response =>
    cases h2 : (raw_of response).mapM (instanceRowE api) with
    | error e2 =>
      rw [audit_try_of_error2 api response e2 h1 h2]
      exact Or.inl rfl
    | ok instances_data =>
      cases h3 : api.describeImages with
      | error e2 =>
        rw [audit_try_of_error3 api response instances_data e2 h1 h2 h3]
        exact Or.inr ⟨instances_data, rfl⟩
      | ok images_response =>
        rw [audit_try_of_ok api response instances_data images_response h1 h2 h3] at h
        simp at h

/-- Claim C8, counterexample to its no-report-output part: when
DescribeInstances succeeds and DescribeImages raises, the step fails,
yet the EC2 instances table has already been printed (line 77 precedes
the DescribeImages call of line 88), so this failed step does produce
report output. -/
theorem C8_counterexample :
    (audit_try imagesFailApi).2 = some "AccessDenied"
    ∧ ConsoleBlock.ec2Table [] ∈ (audit_ec2_instances imagesFailApi).printed := by
  decide

/-- Claim C8 (amended): every exception raised inside an audit step is
caught at the step boundary: the step returns normally with exactly one
error-level log entry carrying the exception text, the console shows
exactly one generic message, printed after whatever the step had already
printed, and the menu loop continues with the remaining input. A failed
step produces no AMI report output; console output printed before the
failure point (the EC2 table, printed before the AMI retrieval) remains. -/
theorem C8_failure_caught_at_boundary (api : ApiEnv) (e : String)
    (rest : List String) (h : (audit_try api).2 = some e) :
    audit_ec2_instances api =
      { logs := ["Error auditing EC2 instances: " ++ e]
        printed := (audit_try api).1 ++ [ConsoleBlock.message consoleErrorText] }
    ∧ (audit_ec2_instances api).logs.length = 1
    ∧ (audit_ec2_instances api).printed.filter ConsoleBlock.isMessage
        = [ConsoleBlock.message consoleErrorText]
    ∧ (∀ rows, ConsoleBlock.amiTable rows ∉ (audit_ec2_instances api).printed)
    ∧ main_loop api ("1" :: rest) =
        LoopEvent.audit (audit_ec2_instances api) :: main_loop api rest := by
  have hpair : audit_try api = ((audit_try api).1, some e) := by
    rw [← h]
  have hout : audit_ec2_instances api =
      { logs := ["Error auditing EC2 instances: " ++ e]
        printed := (audit_try api).1 ++ [ConsoleBlock.message consoleErrorText] } := by
    unfold audit_ec2_instances
    rw [hpair]
  have hmsg : (audit_ec2_instances api).printed.filter ConsoleBlock.isMessage
      = [ConsoleBlock.message consoleErrorText] := by
    rw [hout]
    rcases audit_try_fail_printed api e h with hnil | ⟨rows, hrows⟩
    · rw [hnil]; rfl
    · rw [hrows]; rfl
  have hami : ∀ rows, ConsoleBlock.amiTable rows ∉ (audit_ec2_instances api).printed := by
    intro rows
    rw [hout]
    rcases audit_try_fail_printed api e h with hnil | ⟨rows2, hrows⟩
    · rw [hnil]; simp
    · rw [hrows]; simp
  have htrim : pyStrip "1" = "1" := by decide
  have hloop : main_loop api ("1" :: rest) =
      LoopEvent.audit (audit_ec2_instances api) :: main_loop api rest := by
    simp [main_loop, htrim]
  exact ⟨hout, by rw [hout]; rfl, hmsg, hami, hloop⟩

theorem C8_failure_caught_at_boundary_witness :
    (audit_try failingApi).2 = some "AccessDenied"
    ∧ (audit_ec2_instances failingApi =
        { logs := ["Error auditing EC2 instances: AccessDenied"]
          printed := (audit_try failingApi).1 ++ [ConsoleBlock.message consoleErrorText] }
      ∧ (audit_ec2_instances failingApi).logs.length = 1
      ∧ (audit_ec2_instances failingApi).printed.filter ConsoleBlock.isMessage
          = [ConsoleBlock.message consoleErrorText]
      ∧ (∀ rows, ConsoleBlock.amiTable rows ∉ (audit_ec2_instances failingApi).printed)
      ∧ main_loop failingApi ("1" :: ["2"]) =
          LoopEvent.audit (audit_ec2_instances failingApi) ::
            main_loop failingApi ["2"]) :=
  ⟨rfl, C8_failure_caught_at_boundary failingApi "AccessDenied" ["2"] rfl⟩

end AwsAuditor
